import Mathlib

/-!
Shallow embedding of `fastmri_examples/adaptive_varnet/eval_pretrained_adaptive_varnet.py`:
the metrics accumulation loop, the sampling-policy entropy statistics, and the
checkpoint-class fallback of `cli_main`, together with the script's `entropy`
function. Rational numbers stand for the script's floating-point scalars in the
metric bookkeeping (exact arithmetic); real numbers are used where natural
logarithms appear.
-/

namespace AdaptiveVarnetEval

/-- Arithmetic mean of a list of rationals (`ndarray.mean()` / `Tensor.mean()` on a
1-D array; callers guard emptiness, since `np.concatenate` / `torch.cat` raise on
empty inputs before any mean is taken). -/
def qMean (l : List ℚ) : ℚ := l.sum / l.length

/-- `np.isclose` at numpy's default tolerances `rtol = 1e-5`, `atol = 1e-8`:
`|a - b| <= atol + rtol * |b|`. Used by the mask-sum assertion in `cli_main`. -/
def npIsClose (a b : ℚ) : Bool := decide (|a - b| ≤ 1 / 100000000 + 1 / 100000 * |b|)

/-- The script's `entropy` function: elementwise
`ent = -(prob_mask * prob_mask.log() + (1 - prob_mask) * (1 - prob_mask).log())`
followed by the explicit elementwise overrides `ent[prob_mask == 0] = 0` and
`ent[prob_mask == 1] = 0`, applied before any summation by the callers. -/
noncomputable def entropy (p : ℝ) : ℝ :=
  if p = 0 ∨ p = 1 then 0
  else -(p * Real.log p + (1 - p) * Real.log (1 - p))

/-- Elementwise sum of two rows (`+` on equally-shaped tensors). -/
def vecAdd (v w : List ℚ) : List ℚ := List.zipWith (· + ·) v w

/-- Column sums of a stack of rows of common length `L` (`Tensor.sum(dim=0)`). -/
def colSums (L : ℕ) (rows : List (List ℚ)) : List ℚ :=
  rows.foldr vecAdd (List.replicate L 0)

/-- `prob_mask_tensor.mean(dim=0)`: the per-line marginal probability vector,
the mean over all collected mask rows of each entry. -/
def margProb (rows : List (List ℚ)) : List ℚ :=
  (colSums rows.headI.length rows).map (fun s => s / (rows.length : ℚ))

/-- `entropy(row).sum(dim=1)` for one row: elementwise entropy, then sum over lines. -/
noncomputable def rowEntropySum (r : List ℚ) : ℝ :=
  (r.map (fun p => entropy (p : ℝ))).sum

/-- `marg_ent_ind = entropy(prob_mask_tensor.mean(dim=0, keepdim=True)).sum(dim=1)`:
the summed entropy of the marginal probability vector. -/
noncomputable def margEntInd (rows : List (List ℚ)) : ℝ :=
  rowEntropySum (margProb rows)

/-- `avg_cond_entropy = entropy(prob_mask_tensor).sum(dim=1).mean()`: each row's
entropy summed over lines, then averaged across rows. -/
noncomputable def avgCondEntropy (rows : List (List ℚ)) : ℝ :=
  ((rows.map rowEntropySum).sum) / (rows.length : ℝ)

/-- `mi_ind = marg_ent_ind - avg_cond_entropy`. -/
noncomputable def miInd (rows : List (List ℚ)) : ℝ :=
  margEntInd rows - avgCondEntropy rows

/-- One batch as seen by the evaluation loop. The neural model is an external
collaborator, so the reconstructed `output` appears here as data alongside the
ground-truth `target` and the per-sample `max_value` vector. `probMasks` is the
`extra_outputs["prob_masks"]` entry when present (`none` when the key is absent,
e.g. for a policy-free model): a list of per-batch mask matrices, each matrix the
`[:, 0, 0, :, 0]` slice of shape rows-by-lines already applied. -/
structure Batch (α : Type) where
  target : List α
  output : List α
  maxValue : List ℚ
  probMasks : Option (List (List (List ℚ)))

/-- The mask-collection step of `cli_main` for one batch: if `prob_masks` is
present, assert that exactly one mask tensor was produced, then assert (via
`np.isclose`) that the FIRST row's sum matches the configured budget, and collect
the whole matrix. Python `assert` failures and out-of-range indexing are fatal,
hence `Except`. -/
def collectProbMasks (budget : ℚ) (probMasks : Option (List (List (List ℚ)))) :
    Except String (Option (List (List ℚ))) :=
  match probMasks with
  | none => Except.ok none
  | some pmList =>
    if pmList.length = 1 then
      match pmList.headI with
      | [] => Except.error "index 0 is out of bounds"
      | firstRow :: rest =>
        if npIsClose firstRow.sum budget then Except.ok (some (firstRow :: rest))
        else Except.error "Sum of a prob mask should match budget"
    else Except.error "Found more than one prob mask"

/-- The running accumulators of `cli_main`: `all_prob_masks`, `all_ssims` (one
entry per batch, holding that batch's per-image SSIM scores), `all_psnrs` and
`all_nmses` (one entry per image). -/
structure EvalState where
  allProbMasks : List (List (List ℚ))
  allSsims : List (List ℚ)
  allPsnrs : List ℚ
  allNmses : List ℚ

/-- The empty accumulators at the start of the loop. -/
def initState : EvalState := ⟨[], [], [], []⟩

/-- One iteration of the evaluation loop. `ssimLossF` is the external
`fastmri.SSIMLoss` called with `reduced=False`. Modelled from the spec: the
similarity metric function is "given reconstructed/target image batches and a
per-sample max-value vector, returns a per-sample similarity score array"; the
within-image reduction `.mean(dim=(1, 2))` is absorbed into the per-sample score.
The script then forms `ssim = 1 - loss` and appends the batch's row to
`all_ssims`. PSNR and NMSE come from the external `evaluate.psnr` /
`evaluate.nmse`, called once per image on `zip(target, output, max_value)`,
hence the abstract `psnrF` and `nmseF`. -/
def processBatch {α : Type} (budget : ℚ)
    (ssimLossF : List α → List α → List ℚ → List ℚ)
    (psnrF : α → α → ℚ → ℚ) (nmseF : α → α → ℚ)
    (st : EvalState) (b : Batch α) : Except String EvalState :=
  let ssimRow := (ssimLossF b.output b.target b.maxValue).map (fun x => 1 - x)
  let triples := b.target.zip (b.output.zip b.maxValue)
  let psnrs := triples.map (fun t => psnrF t.1 t.2.1 t.2.2)
  let nmses := triples.map (fun t => nmseF t.1 t.2.1)
  match collectProbMasks budget b.probMasks with
  | Except.error e => Except.error e
  | Except.ok collected =>
    Except.ok
      { allProbMasks :=
          match collected with
          | none => st.allProbMasks
          | some m => st.allProbMasks ++ [m]
        allSsims := st.allSsims ++ [ssimRow]
        allPsnrs := st.allPsnrs ++ psnrs
        allNmses := st.allNmses ++ nmses }

/-- The `if i == args.num_batches: break` cap: with `--num_batches n` only the
first `n` batches are processed; with the default `None` the comparison never
holds and all batches are processed. -/
def cappedBatches {β : Type} (numBatches : Option ℕ) (bs : List β) : List β :=
  match numBatches with
  | none => bs
  | some n => bs.take n

/-- The body of the `for i, batch in enumerate(data_loader)` loop: process the
remaining batches in order, stopping fatally at the first assertion failure. -/
def evalLoopAux {α : Type} (budget : ℚ)
    (ssimLossF : List α → List α → List ℚ → List ℚ)
    (psnrF : α → α → ℚ → ℚ) (nmseF : α → α → ℚ) :
    EvalState → List (Batch α) → Except String EvalState
  | st, [] => Except.ok st
  | st, b :: bs =>
    match processBatch budget ssimLossF psnrF nmseF st b with
    | Except.error e => Except.error e
    | Except.ok st2 => evalLoopAux budget ssimLossF psnrF nmseF st2 bs

/-- The whole evaluation loop: run `processBatch` over the capped batch list,
starting from the empty accumulators. -/
def runEvalLoop {α : Type} (budget : ℚ)
    (ssimLossF : List α → List α → List ℚ → List ℚ)
    (psnrF : α → α → ℚ → ℚ) (nmseF : α → α → ℚ)
    (numBatches : Option ℕ) (batches : List (Batch α)) : Except String EvalState :=
  evalLoopAux budget ssimLossF psnrF nmseF initState (cappedBatches numBatches batches)

/-- Finalization of `cli_main`: `np.concatenate` over the per-image PSNR and NMSE
samples (raising on empty input), `torch.cat` over the per-batch SSIM rows
followed by a single flat `.mean()`, then the `return_dict` with the three base
keys, extended with the three entropy statistics only when `all_prob_masks` is
nonempty (`if all_prob_masks:`), computed on the row-wise concatenation
`torch.cat(all_prob_masks, dim=0)`. -/
noncomputable def finalizeReport (st : EvalState) : Except String (List (String × ℝ)) :=
  if st.allPsnrs.isEmpty then Except.error "need at least one array to concatenate"
  else if st.allNmses.isEmpty then Except.error "need at least one array to concatenate"
  else if st.allSsims.isEmpty then Except.error "expected a non-empty list of Tensors"
  else
    let base : List (String × ℝ) :=
      [("ssim", ((qMean st.allSsims.flatten : ℚ) : ℝ)),
       ("psnr", ((qMean st.allPsnrs : ℚ) : ℝ)),
       ("nmse", ((qMean st.allNmses : ℚ) : ℝ))]
    if st.allProbMasks.isEmpty then Except.ok base
    else
      let rows := st.allProbMasks.flatten
      Except.ok (base ++
        [("cond_ent_ind", avgCondEntropy rows),
         ("marg_ent_ind", margEntInd rows),
         ("mi_ind", miInd rows)])

/-- The metric-producing core of `cli_main`: run the loop, then finalize. -/
noncomputable def cliMainCore {α : Type} (budget : ℚ)
    (ssimLossF : List α → List α → List ℚ → List ℚ)
    (psnrF : α → α → ℚ → ℚ) (nmseF : α → α → ℚ)
    (numBatches : Option ℕ) (batches : List (Batch α)) :
    Except String (List (String × ℝ)) :=
  match runEvalLoop budget ssimLossF psnrF nmseF numBatches batches with
  | Except.error e => Except.error e
  | Except.ok st => finalizeReport st

/-- Python exceptions relevant to checkpoint loading: `RuntimeError` (raised by
`load_state_dict` on a weight/class key mismatch, per the script's own comment)
versus any other exception type. -/
inductive PyError where
  | runtimeError : String → PyError
  | otherError : String → PyError
deriving DecidableEq

/-- A checkpoint file: stored hyperparameters and the key set of its state dict
(weights mapping), abstracted to lists of names. -/
structure Checkpoint where
  hyperParameters : List String
  stateDictKeys : List String
deriving DecidableEq

/-- The two candidate model classes tried by `cli_main`. -/
inductive ModelClass where
  | adaptiveVarNetModule
  | varNetModule
deriving DecidableEq

/-- A successfully loaded model: which class consumed the checkpoint. -/
structure LoadedModel where
  cls : ModelClass
  ckpt : Checkpoint
deriving DecidableEq

/-- `load_model`: construct the module from the stored hyperparameters, then
`load_state_dict`, which raises `RuntimeError` exactly when the checkpoint's
state-dict keys do not match the keys the class expects (`expectedKeys`). -/
def loadModel (expectedKeys : ModelClass → List String) (cls : ModelClass)
    (ckpt : Checkpoint) : Except PyError LoadedModel :=
  if ckpt.stateDictKeys = expectedKeys cls then Except.ok ⟨cls, ckpt⟩
  else Except.error (PyError.runtimeError "Error in loading state_dict")

/-- The `try/except RuntimeError` dispatch of `cli_main`: use the first attempt's
model if it loads; on a `RuntimeError` fall back to the second attempt, whose
outcome (success or failure) is final; any other exception propagates at once. -/
def selectModel (tryAdaptive tryVarnet : Except PyError LoadedModel) :
    Except PyError LoadedModel :=
  match tryAdaptive with
  | Except.ok m => Except.ok m
  | Except.error (PyError.runtimeError _) => tryVarnet
  | Except.error e => Except.error e

/-- The model-loading phase of `cli_main`: try `AdaptiveVarNetModule` first, fall
back to `VarNetModule` on a `RuntimeError`. -/
def cliMainLoadModel (expectedKeys : ModelClass → List String) (ckpt : Checkpoint) :
    Except PyError LoadedModel :=
  selectModel (loadModel expectedKeys ModelClass.adaptiveVarNetModule ckpt)
    (loadModel expectedKeys ModelClass.varNetModule ckpt)

/-- The identity-like instantiation of the similarity boundary used in concrete
scenarios: the per-sample loss row is `1 - target`, so that after the script's
`ssim = 1 - loss` step the batch's SSIM row is exactly the target list. -/
def ssimInj : List ℚ → List ℚ → List ℚ → List ℚ :=
  fun _ tgt _ => tgt.map (fun x => 1 - x)

/-- Constant-zero per-image PSNR metric, for scenarios that do not exercise PSNR. -/
def psnrZero : ℚ → ℚ → ℚ → ℚ := fun _ _ _ => 0

/-- Constant-zero per-image NMSE metric, for scenarios that do not exercise NMSE. -/
def nmseZero : ℚ → ℚ → ℚ := fun _ _ => 0

/-! ### Helper lemmas about `entropy` -/

lemma entropy_zero : entropy 0 = 0 := by
  simp [entropy]

lemma entropy_one : entropy 1 = 0 := by
  simp [entropy]

lemma entropy_eq_binEntropy (p : ℝ) : entropy p = Real.binEntropy p := by
  unfold entropy
  rcases eq_or_ne p 0 with rfl | h0
  · simp
  rcases eq_or_ne p 1 with rfl | h1
  · simp
  rw [if_neg (by tauto)]
  rw [Real.binEntropy, Real.log_inv, Real.log_inv]
  ring

/-- C4: the entropy function computes `H(p) = -(p ln p + (1-p) ln (1-p))`
elementwise and returns exactly 0 at every entry where `p = 0` or `p = 1`, via
the explicit elementwise override applied before any summation. -/
theorem entropy_formula_and_override :
    entropy 0 = 0 ∧ entropy 1 = 0 ∧
      ∀ p : ℝ, p ≠ 0 → p ≠ 1 →
        entropy p = -(p * Real.log p + (1 - p) * Real.log (1 - p)) := by
  refine ⟨entropy_zero, entropy_one, fun p h0 h1 => ?_⟩
  rw [entropy, if_neg (by tauto)]

/-- C4 witness: the unguarded formula clause evaluated at `p = 1/2`. -/
theorem entropy_formula_and_override_witness :
    entropy (1 / 2 : ℝ) =
      -((1 / 2 : ℝ) * Real.log (1 / 2) +
        (1 - 1 / 2) * Real.log (1 - 1 / 2)) :=
  entropy_formula_and_override.2.2 (1 / 2) (by norm_num) (by norm_num)

/-- C9: for every probability strictly between 0 and 1, `entropy` is symmetric
about one half and attains its maximum `entropy (1/2) = ln 2` there. -/
theorem entropy_symm_le_max (p : ℝ) (_h0 : 0 < p) (_h1 : p < 1) :
    entropy p = entropy (1 - p) ∧ entropy p ≤ entropy (1 / 2) ∧
      entropy (1 / 2) = Real.log 2 := by
  have hhalf : entropy (1 / 2 : ℝ) = Real.log 2 := by
    rw [entropy_eq_binEntropy, one_div, Real.binEntropy_two_inv]
  refine ⟨?_, ?_, hhalf⟩
  · rw [entropy_eq_binEntropy, entropy_eq_binEntropy, Real.binEntropy_one_sub]
  · rw [entropy_eq_binEntropy, hhalf]
    exact Real.binEntropy_le_log_two

/-- C9 witness: the symmetry and maximality clauses evaluated at `p = 1/3`. -/
theorem entropy_symm_le_max_witness :
    entropy (1 / 3 : ℝ) = entropy (1 - 1 / 3) ∧
      entropy (1 / 3 : ℝ) ≤ entropy (1 / 2) ∧
      entropy (1 / 2 : ℝ) = Real.log 2 :=
  entropy_symm_le_max (1 / 3) (by norm_num) (by norm_num)

/-- The three synthetic masks of length 4 (budget 2) from the end-to-end
entropy-statistics scenario. -/
def scenarioMasks : List (List ℚ) := [[1, 1, 0, 0], [1, 0, 1, 0], [0, 1, 1, 0]]

/-- C3: `mi_ind = marg_ent_ind - avg_cond_entropy` holds exactly for every
collected stack of mask rows, and on the three masks `[1,1,0,0]`, `[1,0,1,0]`,
`[0,1,1,0]` of length 4 the marginal probability vector is `[2/3, 2/3, 2/3, 0]`,
`marg_ent_ind = 3 * H(2/3)`, `avg_cond_entropy = 0` and `mi_ind = 3 * H(2/3)`. -/
theorem entropy_stats_scenario :
    (∀ rows : List (List ℚ), miInd rows = margEntInd rows - avgCondEntropy rows) ∧
    margProb scenarioMasks = [2 / 3, 2 / 3, 2 / 3, 0] ∧
    margEntInd scenarioMasks = 3 * entropy ((2 : ℝ) / 3) ∧
    avgCondEntropy scenarioMasks = 0 ∧
    miInd scenarioMasks = 3 * entropy ((2 : ℝ) / 3) := by
  have hmp : margProb scenarioMasks = [2 / 3, 2 / 3, 2 / 3, 0] := by
    norm_num [margProb, colSums, vecAdd, scenarioMasks, List.replicate,
      List.zipWith_cons_cons]
  have hme : margEntInd scenarioMasks = 3 * entropy ((2 : ℝ) / 3) := by
    rw [margEntInd, hmp, rowEntropySum]
    simp [entropy_zero]
    ring
  have hac : avgCondEntropy scenarioMasks = 0 := by
    rw [avgCondEntropy, scenarioMasks]
    simp [rowEntropySum, entropy_zero, entropy_one]
  exact ⟨fun rows => rfl, hmp, hme, hac, by rw [miInd, hme, hac]; ring⟩

lemma entropy_half : entropy (2⁻¹ : ℝ) = Real.log 2 := by
  rw [entropy_eq_binEntropy, Real.binEntropy_two_inv]

lemma entropy_one_div_two : entropy ((1 : ℝ) / 2) = Real.log 2 := by
  rw [one_div, entropy_half]

/-- C1 counterexample: a run with batches of sizes 2 and 3 whose per-image SSIM
scores are 0, 0 and 1, 1, 1. The finalized SSIM is the flat mean 3/5 over the
five images, which differs from the mean 1/2 of the two batch-level means. -/
theorem ssim_not_mean_of_batch_means :
    cliMainCore 0 ssimInj psnrZero nmseZero none
      [⟨[0, 0], [0, 0], [1, 1], none⟩, ⟨[1, 1, 1], [1, 1, 1], [1, 1, 1], none⟩] =
      Except.ok [("ssim", ((3 / 5 : ℚ) : ℝ)), ("psnr", ((0 : ℚ) : ℝ)),
        ("nmse", ((0 : ℚ) : ℝ))] ∧
    ((3 / 5 : ℚ) : ℝ) ≠ (((0 : ℝ) + 0) / 2 + ((1 : ℝ) + 1 + 1) / 3) / 2 := by
  constructor
  · norm_num [cliMainCore, runEvalLoop, cappedBatches, evalLoopAux, processBatch,
      collectProbMasks, initState, finalizeReport, ssimInj, psnrZero, nmseZero, qMean]
  · norm_num

/-- C1 amended: the finalized SSIM is the flat mean over all per-image SSIM
entries across batches, so for batches of sizes 2 and 3 with per-image scores
`a1, a2` and `b1, b2, b3` it equals `(a1 + a2 + b1 + b2 + b3) / 5` — not the
mean of the two batch-level means. -/
theorem ssim_flat_mean_over_images (a1 a2 b1 b2 b3 : ℚ) :
    cliMainCore 0 ssimInj psnrZero nmseZero none
      [⟨[a1, a2], [a1, a2], [1, 1], none⟩,
       ⟨[b1, b2, b3], [b1, b2, b3], [1, 1, 1], none⟩] =
      Except.ok [("ssim", (((a1 + a2 + b1 + b2 + b3) / 5 : ℚ) : ℝ)),
        ("psnr", ((0 : ℚ) : ℝ)), ("nmse", ((0 : ℚ) : ℝ))] := by
  norm_num [cliMainCore, runEvalLoop, cappedBatches, evalLoopAux, processBatch,
    collectProbMasks, initState, finalizeReport, ssimInj, psnrZero, nmseZero, qMean]
  ring

/-- C2 counterexample: a collected batch whose first row `[1,1,0,0]` sums to the
budget 2 but whose second row `[1,1,1,0]` sums to 3, deviating from the budget by
far more than the `np.isclose` tolerance. The run nevertheless succeeds: only the
first row of each collected batch is checked, so no fatal assertion fires. -/
theorem mask_sum_checked_only_for_first_row :
    npIsClose ([(1 : ℚ), 1, 1, 0].sum) 2 = false ∧
    cliMainCore 2 ssimInj psnrZero nmseZero none
      [⟨[0, 0], [0, 0], [1, 1], some [[[1, 1, 0, 0], [1, 1, 1, 0]]]⟩] =
      Except.ok [("ssim", ((0 : ℚ) : ℝ)), ("psnr", ((0 : ℚ) : ℝ)),
        ("nmse", ((0 : ℚ) : ℝ)), ("cond_ent_ind", 0),
        ("marg_ent_ind", Real.log 2), ("mi_ind", Real.log 2)] := by
  constructor
  · norm_num [npIsClose]
  · norm_num [cliMainCore, runEvalLoop, cappedBatches, evalLoopAux, processBatch,
      collectProbMasks, initState, finalizeReport, ssimInj, psnrZero, nmseZero,
      qMean, npIsClose, margProb, colSums, vecAdd, margEntInd, avgCondEntropy,
      miInd, rowEntropySum, entropy_zero, entropy_one, entropy_half,
      entropy_one_div_two, List.replicate, List.zipWith_cons_cons]

/-- C2 amended: for each collected batch, `cli_main` checks only the FIRST row of
the batch's probability-mask matrix against the budget: a first row deviating
beyond the `np.isclose` tolerance is a fatal assertion failure, while the
remaining rows are collected unchecked. -/
theorem mask_first_row_sum_assertion (budget : ℚ) (firstRow : List ℚ)
    (rest : List (List ℚ))
    (ssimLossF : List ℚ → List ℚ → List ℚ → List ℚ)
    (psnrF : ℚ → ℚ → ℚ → ℚ) (nmseF : ℚ → ℚ → ℚ) :
    (npIsClose firstRow.sum budget = false →
      cliMainCore budget ssimLossF psnrF nmseF none
        [⟨[0], [0], [1], some [firstRow :: rest]⟩] =
        Except.error "Sum of a prob mask should match budget") ∧
    (npIsClose firstRow.sum budget = true →
      ∃ d, cliMainCore budget ssimLossF psnrF nmseF none
        [⟨[0], [0], [1], some [firstRow :: rest]⟩] = Except.ok d) := by
  constructor
  · intro hfar
    simp [cliMainCore, runEvalLoop, cappedBatches, evalLoopAux, processBatch,
      collectProbMasks, hfar]
  · intro hclose
    exact ⟨_, by
      simp only [cliMainCore, runEvalLoop, cappedBatches, evalLoopAux,
        processBatch, collectProbMasks, hclose, initState, finalizeReport,
        List.length_cons, List.length_nil, List.isEmpty_cons, if_true,
        List.append_nil, List.nil_append, Bool.false_eq_true, if_false,
        List.headI, List.zip_cons_cons, List.zip_nil_right, List.map_cons,
        List.map_nil, reduceIte]
      rfl⟩

/-- C2 witness: the fatal branch of the amended claim at budget 2 and first row
`[1, 1, 1, 0]` (sum 3). -/
theorem mask_first_row_sum_assertion_witness :
    cliMainCore 2 ssimInj psnrZero nmseZero none
      [⟨[0], [0], [1], some [[[1, 1, 1, 0], [1, 1, 0, 0]]]⟩] =
      Except.error "Sum of a prob mask should match budget" :=
  (mask_first_row_sum_assertion 2 [1, 1, 1, 0] [[1, 1, 0, 0]]
    ssimInj psnrZero nmseZero).1 (by norm_num [npIsClose])

/-- C5: PSNR and NMSE are computed once per image against that image's own
ground truth (and, for PSNR, its own max value), and the finalized PSNR and NMSE
are flat means over all per-image samples across batches of sizes 2 and 3. -/
theorem psnr_nmse_per_image_flat_mean (psnrF : ℚ → ℚ → ℚ → ℚ) (nmseF : ℚ → ℚ → ℚ)
    (g1 g2 g3 g4 g5 r1 r2 r3 r4 r5 m1 m2 m3 m4 m5 : ℚ) :
    cliMainCore 0 ssimInj psnrF nmseF none
      [⟨[g1, g2], [r1, r2], [m1, m2], none⟩,
       ⟨[g3, g4, g5], [r3, r4, r5], [m3, m4, m5], none⟩] =
      Except.ok [("ssim", (((g1 + g2 + g3 + g4 + g5) / 5 : ℚ) : ℝ)),
        ("psnr", (((psnrF g1 r1 m1 + psnrF g2 r2 m2 + psnrF g3 r3 m3 +
          psnrF g4 r4 m4 + psnrF g5 r5 m5) / 5 : ℚ) : ℝ)),
        ("nmse", (((nmseF g1 r1 + nmseF g2 r2 + nmseF g3 r3 +
          nmseF g4 r4 + nmseF g5 r5) / 5 : ℚ) : ℝ))] := by
  norm_num [cliMainCore, runEvalLoop, cappedBatches, evalLoopAux, processBatch,
    collectProbMasks, initState, finalizeReport, ssimInj, qMean]
  refine ⟨by ring, by ring, by ring⟩

lemma evalLoopAux_probMasks_none {α : Type} (budget : ℚ)
    (ssimLossF : List α → List α → List ℚ → List ℚ)
    (psnrF : α → α → ℚ → ℚ) (nmseF : α → α → ℚ) :
    ∀ (bs : List (Batch α)) (st : EvalState),
      (∀ b ∈ bs, b.probMasks = none) →
      ∀ st2, evalLoopAux budget ssimLossF psnrF nmseF st bs = Except.ok st2 →
        st2.allProbMasks = st.allProbMasks := by
  intro bs
  induction bs with
  | nil =>
    intro st _ st2 h
    cases h
    rfl
  | cons b bs ih =>
    intro st hnone st2 h
    have hb : b.probMasks = none := hnone b (List.mem_cons_self b bs)
    simp only [evalLoopAux, processBatch, hb, collectProbMasks] at h
    have hstep := ih _ (fun x hx => hnone x (List.mem_cons_of_mem b hx)) st2 h
    exact hstep

/-- C6: when no probability masks are ever collected (every processed batch has
no `prob_masks` entry), any finalized report contains exactly the three base
metric keys, in order, and none of the three entropy keys. -/
theorem no_masks_report_base_keys_only {α : Type} (budget : ℚ)
    (ssimLossF : List α → List α → List ℚ → List ℚ)
    (psnrF : α → α → ℚ → ℚ) (nmseF : α → α → ℚ)
    (numBatches : Option ℕ) (batches : List (Batch α))
    (hnone : ∀ b ∈ batches, b.probMasks = none) :
    ∀ d, cliMainCore budget ssimLossF psnrF nmseF numBatches batches =
        Except.ok d →
      d.map Prod.fst = ["ssim", "psnr", "nmse"] := by
  intro d hd
  rcases hrun : runEvalLoop budget ssimLossF psnrF nmseF numBatches batches with e | st
  · simp only [cliMainCore, hrun] at hd
    cases hd
  · simp only [cliMainCore, hrun] at hd
    have hmask : st.allProbMasks = [] := by
      have hsub : ∀ b ∈ cappedBatches numBatches batches, b.probMasks = none := by
        intro b hb
        apply hnone
        cases numBatches with
        | none => exact hb
        | some n => exact List.take_subset n batches hb
      exact evalLoopAux_probMasks_none budget ssimLossF psnrF nmseF
        (cappedBatches numBatches batches) initState hsub st hrun
    rw [finalizeReport, hmask] at hd
    split_ifs at hd with hp hn hs hm
    · cases hd
      rfl
    · exact absurd List.isEmpty_nil hm

/-- C6 witness: a one-batch run with no `prob_masks` entry reports exactly the
keys `ssim`, `psnr`, `nmse`. -/
theorem no_masks_report_base_keys_only_witness :
    ([("ssim", ((0 : ℚ) : ℝ)), ("psnr", ((0 : ℚ) : ℝ)), ("nmse", ((0 : ℚ) : ℝ))] :
        List (String × ℝ)).map Prod.fst = ["ssim", "psnr", "nmse"] :=
  no_masks_report_base_keys_only 0 ssimInj psnrZero nmseZero none
    [⟨[0], [0], [1], none⟩] (by simp) _
    (by norm_num [cliMainCore, runEvalLoop, cappedBatches, evalLoopAux,
      processBatch, collectProbMasks, initState, finalizeReport, ssimInj,
      psnrZero, nmseZero, qMean])

/-- C7: a batch whose auxiliary outputs hold more than one probability-mask
tensor makes batch processing fail with the fatal multiple-policies assertion,
before any of the masks is collected. -/
theorem multiple_prob_masks_fatal {α : Type} (budget : ℚ)
    (ssimLossF : List α → List α → List ℚ → List ℚ)
    (psnrF : α → α → ℚ → ℚ) (nmseF : α → α → ℚ)
    (st : EvalState) (b : Batch α) (pmList : List (List (List ℚ)))
    (hpm : b.probMasks = some pmList) (hlen : 1 < pmList.length) :
    processBatch budget ssimLossF psnrF nmseF st b =
      Except.error "Found more than one prob mask" := by
  simp only [processBatch, hpm, collectProbMasks]
  rw [if_neg (by omega)]

/-- C7 witness: a batch carrying two mask tensors is rejected. -/
theorem multiple_prob_masks_fatal_witness :
    processBatch 2 ssimInj psnrZero nmseZero initState
      ⟨[0], [0], [1], some [[[1]], [[1]]]⟩ =
      Except.error "Found more than one prob mask" :=
  multiple_prob_masks_fatal 2 ssimInj psnrZero nmseZero initState
    ⟨[0], [0], [1], some [[[1]], [[1]]]⟩ [[[1]], [[1]]] rfl (by norm_num)

/-- C8: the policy-enabled class is tried first and used when its weights match;
exactly when its weights do not match (a `RuntimeError`), the policy-free class
is tried exactly once, and its outcome — including a second mismatch, which
propagates as a fatal error — is final. -/
theorem checkpoint_fallback (expectedKeys : ModelClass → List String)
    (ckpt : Checkpoint) :
    (ckpt.stateDictKeys = expectedKeys ModelClass.adaptiveVarNetModule →
      cliMainLoadModel expectedKeys ckpt =
        Except.ok ⟨ModelClass.adaptiveVarNetModule, ckpt⟩) ∧
    (ckpt.stateDictKeys ≠ expectedKeys ModelClass.adaptiveVarNetModule →
      cliMainLoadModel expectedKeys ckpt =
        loadModel expectedKeys ModelClass.varNetModule ckpt) ∧
    (ckpt.stateDictKeys ≠ expectedKeys ModelClass.adaptiveVarNetModule →
      ckpt.stateDictKeys ≠ expectedKeys ModelClass.varNetModule →
      cliMainLoadModel expectedKeys ckpt =
        Except.error (PyError.runtimeError "Error in loading state_dict")) := by
  refine ⟨fun h1 => ?_, fun h1 => ?_, fun h1 h2 => ?_⟩
  · simp [cliMainLoadModel, selectModel, loadModel, h1]
  · simp [cliMainLoadModel, selectModel, loadModel, h1]
  · simp [cliMainLoadModel, selectModel, loadModel, h1, h2]

/-- The expected state-dict key sets of the two model classes in the
checkpoint-fallback witness scenario. -/
def exampleKeys : ModelClass → List String
  | ModelClass.adaptiveVarNetModule => ["adaptive"]
  | ModelClass.varNetModule => ["varnet"]

/-- C8 witness: a checkpoint holding policy-free weights fails the first attempt
and resolves through the single fallback attempt. -/
theorem checkpoint_fallback_witness :
    cliMainLoadModel exampleKeys ⟨[], ["varnet"]⟩ =
      loadModel exampleKeys ModelClass.varNetModule ⟨[], ["varnet"]⟩ :=
  (checkpoint_fallback exampleKeys ⟨[], ["varnet"]⟩).2.1 (by simp [exampleKeys])

/-- C10: if the loop processes zero batches (empty data loader or a batch cap of
zero), finalization raises the empty-concatenation error instead of producing a
report. -/
theorem zero_batches_fatal {α : Type} (budget : ℚ)
    (ssimLossF : List α → List α → List ℚ → List ℚ)
    (psnrF : α → α → ℚ → ℚ) (nmseF : α → α → ℚ)
    (numBatches : Option ℕ) (batches : List (Batch α))
    (h : batches = [] ∨ numBatches = some 0) :
    cliMainCore budget ssimLossF psnrF nmseF numBatches batches =
      Except.error "need at least one array to concatenate" := by
  have hcap : cappedBatches numBatches batches = [] := by
    rcases h with rfl | rfl
    · cases numBatches <;> simp [cappedBatches]
    · simp [cappedBatches]
  simp [cliMainCore, runEvalLoop, hcap, evalLoopAux, initState, finalizeReport]

/-- C10 witness: a batch cap of zero aborts finalization with the
empty-concatenation error even though the data loader is nonempty. -/
theorem zero_batches_fatal_witness :
    cliMainCore 0 ssimInj psnrZero nmseZero (some 0) [⟨[0], [0], [1], none⟩] =
      Except.error "need at least one array to concatenate" :=
  zero_batches_fatal 0 ssimInj psnrZero nmseZero (some 0) [⟨[0], [0], [1], none⟩]
    (Or.inr rfl)

end AdaptiveVarnetEval
